import Mathlib

/-
Verification model of `book_scraper.py` (BookStore-Data-Mining-Project).

The scraper's crawl-and-extract engine is shallowly embedded as executable
Lean functions. A fetched-and-parsed page (BeautifulSoup object) is modelled
by the `Doc` structure, whose fields hold exactly the query results the
source asks a page for; an entire site is a function `String → Option Doc`
(`get_soup`: `none` models a fetch that does not return status 200).
Python exceptions are modelled by `Except String`, the error string naming
the Python exception class raised; a Python function that terminates
normally returns `Except.ok`. Machine floats of the source are modelled by
exact rationals: every numeral the scraper meets is a short decimal literal,
and no claim concerns rounding. `time.sleep` has no observable effect and is
not modelled.
-/

/-- Model of Python `str.strip()` on a list of characters: drop whitespace
from both ends (the source only ever strips ASCII page text). -/
def pyStripL (cs : List Char) : List Char :=
  ((cs.dropWhile Char.isWhitespace).reverse.dropWhile Char.isWhitespace).reverse

/-- Model of Python `str.strip()`. -/
def pyStrip (s : String) : String := String.mk (pyStripL s.toList)

/-- Model of Python `str.lower()` for the ASCII class names the source meets. -/
def pyLower (s : String) : String := String.mk (s.toList.map Char.toLower)

/-- Occurrence test used to model Python's `in` operator on strings:
does `pat` occur as a contiguous substring? -/
def containsL (pat : List Char) : List Char → Bool
  | [] => pat.isEmpty
  | c :: rest => pat.isPrefixOf (c :: rest) || containsL pat rest

/-- Model of Python `pat in s` (substring containment), as in
`"In stock" in availability` at line 41 of the source. -/
def strContains (s pat : String) : Bool := containsL pat.toList s.toList

/-- Worker for the model of Python `str.replace`: replace every
non-overlapping occurrence of `pat`, scanning left to right. Each step
consumes at least one character, so `fuel` equal to the list length makes
the base `0` case unreachable while keeping the recursion structural. -/
def replaceAllGo (pat rep : List Char) : Nat → List Char → List Char
  | 0, s => s
  | fuel + 1, s =>
    match s with
    | [] => []
    | c :: rest =>
      if !pat.isEmpty && pat.isPrefixOf (c :: rest) then
        rep ++ replaceAllGo pat rep fuel (List.drop (pat.length - 1) rest)
      else
        c :: replaceAllGo pat rep fuel rest

/-- Model of Python `str.replace` on character lists. -/
def replaceAllL (pat rep s : List Char) : List Char :=
  replaceAllGo pat rep s.length s

/-- Model of Python `s.replace(old, new)`. -/
def pyReplace (s old new : String) : String :=
  String.mk (replaceAllL old.toList new.toList s.toList)

/-- Value of a string of ASCII digits, as Python `int` reads one. -/
def natOfDigits (ds : List Char) : Nat :=
  ds.foldl (fun n c => 10 * n + (c.toNat - 48)) 0

/-- The characters kept by the source's `re.sub(r'[^0-9\.]', '', price)`
at line 38: digits and the dot. -/
def priceKeep (c : Char) : Bool := c.isDigit || c == '.'

/-- A Python float value as the scraper meets it: a non-negative decimal
parsed from page text, held exactly as numerator over a power-of-ten
denominator. The program only parses and stores prices — it never computes
with them — so this exact-decimal value model is faithful, and every parse
of the same text yields the same representative. -/
structure PyFloat where
  num : Nat
  den : Nat
deriving DecidableEq, Repr

/-- The rational value a `PyFloat` denotes. -/
def PyFloat.toRat (x : PyFloat) : ℚ := (x.num : ℚ) / (x.den : ℚ)

/-- Value that Python `float` assigns to a digits-and-dots string with at
most one dot: integer part and fractional part read off around the dot. -/
def dotSplitVal (cs : List Char) : PyFloat :=
  let ip := cs.takeWhile (fun c => c != '.')
  let fp := cs.drop (ip.length + 1)
  { num := natOfDigits ip * 10 ^ fp.length + natOfDigits fp
    den := 10 ^ fp.length }

/-- Model of Python `float(s)` restricted to its use at line 38 of the
source, where `s` holds only digits and dots after the `re.sub`: it succeeds
exactly when at least one digit is present and at most one dot, and fails
(`ValueError`) otherwise. -/
def pyFloat? (cs : List Char) : Option PyFloat :=
  if cs.any Char.isDigit && cs.count '.' ≤ 1 then some (dotSplitVal cs) else none

/-- Lines 37–38 of the source: strip the price text, delete every character
that is not a digit or a dot, and parse the remainder as a float; a parse
failure is Python's `ValueError`. -/
def parse_price (s : String) : Except String PyFloat :=
  match pyFloat? (((pyStrip s).toList).filter priceKeep) with
  | some q => Except.ok q
  | none => Except.error "ValueError"

/-- Model of `re.search(r'(\d+) available', s)` at line 43: scan left to
right; at the first position where a maximal digit run is followed by the
text `" available"`, return the run's value. (Backtracking inside `\d+`
cannot produce another match, because shortening the run leaves a digit
where the pattern needs a space.) -/
def reSearchAvailL : List Char → Option Nat
  | [] => none
  | c :: rest =>
    if c.isDigit then
      if (" available".toList).isPrefixOf
          (List.drop (List.takeWhile Char.isDigit (c :: rest)).length (c :: rest)) then
        some (natOfDigits (List.takeWhile Char.isDigit (c :: rest)))
      else reSearchAvailL rest
    else reSearchAvailL rest

/-- String form of `re.search(r'(\d+) available', s)`, returning the
captured count. -/
def reSearchAvail (s : String) : Option Nat := reSearchAvailL s.toList

/-- Line 43 of the source: the stock count parsed from the stock text, `0`
when the pattern finds no match. -/
def stockCountOf (stock_text : String) : Nat :=
  match reSearchAvail stock_text with
  | some n => n
  | none => 0

/-- Lines 47–48 of the source: `rating_map.get(rating_class, 0)` over the
dict mapping the five rating words to 1–5. -/
def rating_map_get (s : String) : Nat :=
  if s = "one" then 1
  else if s = "two" then 2
  else if s = "three" then 3
  else if s = "four" then 4
  else if s = "five" then 5
  else 0

/-- Line 52 of the source: the description text when the node exists,
else the sentinel default. -/
def descriptionOf : Option String → String
  | none => "No description available"
  | some t => pyStrip t

/-- Modelled from the spec and the stdlib: `urllib.parse.urljoin(base, t)`
(line 99), an external collaborator of the core, restricted to the address
shapes this development uses — an absolute `http(s)` target is returned
unchanged, and a relative target replaces everything after the last slash
of the base. -/
def urljoin (base target : String) : String :=
  if ("http://".toList).isPrefixOf target.toList
      || ("https://".toList).isPrefixOf target.toList then target
  else String.mk (((base.toList.reverse).dropWhile (fun c => c != '/')).reverse
    ++ target.toList)

instance {ε α : Type} [DecidableEq ε] [DecidableEq α] : DecidableEq (Except ε α) := fun x y =>
  match x, y with
  | Except.error a, Except.error b =>
    if h : a = b then Decidable.isTrue (by rw [h])
    else Decidable.isFalse (fun hc => h (Except.error.inj hc))
  | Except.error _, Except.ok _ => Decidable.isFalse (fun hc => Except.noConfusion hc)
  | Except.ok _, Except.error _ => Decidable.isFalse (fun hc => Except.noConfusion hc)
  | Except.ok a, Except.ok b =>
    if h : a = b then Decidable.isTrue (by rw [h])
    else Decidable.isFalse (fun hc => h (Except.ok.inj hc))

/-- One structured record of the scraper: the dict built at lines 60–70 of
`extract_book_data`. -/
structure Book where
  title : String
  price : PyFloat
  rating : Nat
  availability : Bool
  stock_count : Nat
  description : String
  category : String
  upc : String
  url : String
deriving DecidableEq, Repr

/-- A fetched-and-parsed page, holding the results of exactly the queries
the source performs on a soup. `none` in an `Option` field means the
queried node is absent, in which case the source's attribute access on the
`None` raises. `productMainH1` is the text of `div.product_main → h1`
(absence of either node raises the same `AttributeError`); `starRating` is
the class-attribute list of `p.star-rating`; `breadcrumbLis` the texts of
`ul.breadcrumb li`; `productPods` the `h3 a` href of each
`article.product_pod` in document order; `hasNext` whether `li.next a`
exists. -/
structure Doc where
  productPods : List String := []
  hasNext : Bool := false
  productMainH1 : Option String := none
  priceColor : Option String := none
  availability : Option String := none
  instockAvailability : Option String := none
  starRating : Option (List String) := none
  descriptionSibling : Option String := none
  breadcrumbLis : List String := []
  upcTd : Option String := none
deriving DecidableEq, Repr

/-- Lines 36–70 of `extract_book_data`, after the soup is in hand: the
field-extraction pipeline, evaluated in source order, where an absent
required node raises the Python exception named in the error. -/
def extractFields (soup : Doc) (book_url : String) : Except String Book :=
  match soup.productMainH1 with
  | none => Except.error "AttributeError"
  | some titleText =>
    match soup.priceColor with
    | none => Except.error "AttributeError"
    | some priceText =>
      match parse_price priceText with
      | Except.error e => Except.error e
      | Except.ok price =>
        match soup.availability with
        | none => Except.error "AttributeError"
        | some availText =>
          match soup.instockAvailability with
          | none => Except.error "AttributeError"
          | some stockRaw =>
            match soup.starRating with
            | none => Except.error "TypeError"
            | some classes =>
              match classes.get? 1 with
              | none => Except.error "IndexError"
              | some ratingWord =>
                match soup.breadcrumbLis.get? 2 with
                | none => Except.error "IndexError"
                | some categoryText =>
                  match soup.upcTd with
                  | none => Except.error "AttributeError"
                  | some upcText =>
                    Except.ok
                      { title := pyStrip titleText
                        price := price
                        rating := rating_map_get (pyLower ratingWord)
                        availability := strContains (pyStrip availText) "In stock"
                        stock_count := stockCountOf (pyStrip stockRaw)
                        description := descriptionOf soup.descriptionSibling
                        category := pyStrip categoryText
                        upc := pyStrip upcText
                        url := book_url }

/-- Whether a modelled Python computation ended in a raised exception. -/
def resultIsError {α : Type} : Except String α → Bool
  | Except.error _ => true
  | Except.ok _ => false

/-- `extract_book_data(book_url)` (lines 29–70): fetch the page — a failed
fetch returns `None` (line 33) — then run the extraction pipeline; any
exception it raises propagates to the caller uncaught. -/
def extract_book_data (site : String → Option Doc) (book_url : String) :
    Except String (Option Book) :=
  match site book_url with
  | none => Except.ok none
  | some soup => Except.map some (extractFields soup book_url)

/-- Truthiness of `limit and books_count >= limit` (lines 93 and 111): a
`None` limit and a `0` limit are both falsy, so the comparison is not even
evaluated for them. -/
def limitReached (limit : Option Nat) (count : Nat) : Bool :=
  match limit with
  | none => false
  | some l => if l = 0 then false else decide (l ≤ count)

/-- State of the inner `for book in books` loop of `scrape_category`
(lines 92–109) when the loop stops: the accumulated records, the running
count, the item addresses passed to `extract_book_data` in order, and the
exception that escaped the loop, if any. -/
structure InnerState where
  acc : List Book
  count : Nat
  fetched : List String
  exn : Option String
deriving DecidableEq, Repr

/-- The inner `for book in books` loop of `scrape_category` (lines 92–109):
before each item, the limit truthiness check breaks out; otherwise the item
address is resolved against the current page address and fetched through
`extract_book_data` — a `None` result (failed fetch) is skipped, a record is
appended and counted, and an exception aborts the loop. -/
def forBooks (site : String → Option Doc) (url : String) (limit : Option Nat) :
    List String → List Book → Nat → List String → InnerState
  | [], acc, count, log => ⟨acc, count, log, none⟩
  | href :: rest, acc, count, log =>
    if limitReached limit count then ⟨acc, count, log, none⟩
    else
      match extract_book_data site (urljoin url href) with
      | Except.error e => ⟨acc, count, log ++ [urljoin url href], some e⟩
      | Except.ok none => forBooks site url limit rest acc count (log ++ [urljoin url href])
      | Except.ok (some b) =>
        forBooks site url limit rest (acc ++ [b]) (count + 1) (log ++ [urljoin url href])

/-- How a call of `scrape_category` ends: a normal return of the collected
records, an uncaught Python exception, or — an artefact of the embedding
only — exhaustion of the page fuel that bounds the unboundedly recursive
`while True` loop. -/
inductive RunResult
  | ok (books : List Book)
  | exn (e : String)
  | fuelOut
deriving DecidableEq, Repr

/-- A finished `scrape_category` call: its outcome plus the item-detail
addresses it fetched, in order. -/
structure CrawlOutcome where
  result : RunResult
  itemFetches : List String
deriving DecidableEq, Repr

/-- Lines 79–82 of the source: page 1 uses the category address literally,
and every later page address substitutes `page-N.html` for the token
`index.html` in the category address. -/
def pageUrl (category_url : String) (page_num : Nat) : String :=
  if page_num = 1 then category_url
  else pyReplace category_url "index.html" ("page-" ++ toString page_num ++ ".html")

/-- The `while True` page loop of `scrape_category` (lines 78–121): fetch
the page address — a failed fetch breaks out returning the partial results —
then stop on an empty item list, run the inner item loop, re-raise its
exception if any, stop once the limit truthiness check fires, stop when no
next-page link exists, and otherwise advance the page index. `fuel` bounds
the number of page iterations the embedding unfolds. -/
def scrapePagesAux (site : String → Option Doc) (category_url : String)
    (limit : Option Nat) :
    Nat → Nat → List Book → Nat → List String → CrawlOutcome
  | 0, _, _, _, log => ⟨RunResult.fuelOut, log⟩
  | fuel + 1, page_num, acc, count, log =>
    match site (pageUrl category_url page_num) with
    | none => ⟨RunResult.ok acc, log⟩
    | some soup =>
      if soup.productPods.isEmpty then ⟨RunResult.ok acc, log⟩
      else
        match forBooks site (pageUrl category_url page_num) limit
            soup.productPods acc count log with
        | ⟨_, _, log2, some e⟩ => ⟨RunResult.exn e, log2⟩
        | ⟨acc2, count2, log2, none⟩ =>
          if limitReached limit count2 then ⟨RunResult.ok acc2, log2⟩
          else if soup.hasNext then
            scrapePagesAux site category_url limit fuel (page_num + 1) acc2 count2 log2
          else ⟨RunResult.ok acc2, log2⟩

/-- `scrape_category(category_url, limit)` (lines 72–121): the page loop
started at page 1 with empty accumulators. -/
def scrape_category (site : String → Option Doc) (category_url : String)
    (limit : Option Nat) (fuel : Nat) : CrawlOutcome :=
  scrapePagesAux site category_url limit fuel 1 [] 0 []

/-- Line 13 of the source: the site root address, which the shipped test
path (line 258) paginates directly. -/
def base_url : String := "http://books.toscrape.com/"

/-- A fully well-formed item-detail page. -/
def fullBookDoc : Doc :=
  { productMainH1 := some "Sound"
    priceColor := some "£51.77"
    availability := some "In stock (16 available)"
    instockAvailability := some "In stock (16 available)"
    starRating := some ["star-rating", "Three"]
    descriptionSibling := some "A book."
    breadcrumbLis := ["Home", "Books", "Poetry", "Sound"]
    upcTd := some "abc123" }

/-- The record `extract_book_data` builds from `fullBookDoc` at address `u`. -/
def fullBook (u : String) : Book :=
  ⟨"Sound", ⟨5177, 100⟩, 3, true, 16, "A book.", "Poetry", "abc123", u⟩

/-- An item-detail page whose availability text reads `Out of stock`. -/
def outStockDoc : Doc :=
  { fullBookDoc with
    availability := some "Out of stock"
    instockAvailability := some "Out of stock" }

/-- The record extracted from `outStockDoc` at address `u`. -/
def outBook (u : String) : Book :=
  ⟨"Sound", ⟨5177, 100⟩, 3, false, 0, "A book.", "Poetry", "abc123", u⟩

/-- An item-detail page with no title node. -/
def noTitleDoc : Doc := { fullBookDoc with productMainH1 := none }

/-- An item-detail page with no price node. -/
def noPriceDoc : Doc := { fullBookDoc with priceColor := none }

/-- An item-detail page with no availability node. -/
def noAvailDoc : Doc := { fullBookDoc with availability := none }

/-- An item-detail page with no `instock availability` node. -/
def noStockNodeDoc : Doc := { fullBookDoc with instockAvailability := none }

/-- An item-detail page whose star-rating class word is not one of the five
recognized rating words. -/
def ratingZeroDoc : Doc :=
  { fullBookDoc with starRating := some ["star-rating", "Zero"] }

/-- An item-detail page with no description block. -/
def noDescDoc : Doc := { fullBookDoc with descriptionSibling := none }

/-- A site with one single-page category of two items, the second of which
is served but missing its price node. -/
def c1Site : String → Option Doc := fun u =>
  if u = "cat/index.html" then
    some { productPods := ["good.html", "bad.html"] }
  else if u = "cat/good.html" then some fullBookDoc
  else if u = "cat/bad.html" then some noPriceDoc
  else none

/-- A site with one single-page category of two items, the second of whose
detail pages fails to fetch. -/
def c1SiteB : String → Option Doc := fun u =>
  if u = "cat/index.html" then
    some { productPods := ["good.html", "missing.html"] }
  else if u = "cat/good.html" then some fullBookDoc
  else none

/-- A site serving a title-less item page at every address. -/
def c2Site : String → Option Doc := fun _ => some noTitleDoc

/-- The twenty item hrefs of one listing page, tagged by a page letter. -/
def podNames (p : String) : List String :=
  (List.range 20).map (fun i => p ++ toString (i + 1))

/-- A category of three pages of twenty items each, every item page fully
extractable; the category address is just `index.html`, so the derived page
addresses are `page-2.html` and `page-3.html` and the item hrefs resolve to
themselves. -/
def c6Site : String → Option Doc := fun u =>
  if u = "index.html" then some { productPods := podNames "a", hasNext := true }
  else if u = "page-2.html" then some { productPods := podNames "b", hasNext := true }
  else if u = "page-3.html" then some { productPods := podNames "c", hasNext := false }
  else some fullBookDoc

/-- The item addresses a limit-25 crawl of `c6Site` fetches: all of page 1
and the first five items of page 2. -/
def c6Fetches : List String := podNames "a" ++ (podNames "b").take 5

/-- The records a limit-25 crawl of `c6Site` collects. -/
def c6Books : List Book := c6Fetches.map fullBook

/-- A site whose category lists two items on page 1 and advertises a next
page, but whose page-2 address fails to fetch. -/
def c7Site : String → Option Doc := fun u =>
  if u = "cat/index.html" then
    some { productPods := ["g1.html", "g2.html"], hasNext := true }
  else if u = "cat/g1.html" then some fullBookDoc
  else if u = "cat/g2.html" then some fullBookDoc
  else none

/-- A site with one single-page category of five items whose second item
page fails to fetch, so a limit-3 crawl must fetch four item pages. -/
def c10Site : String → Option Doc := fun u =>
  if u = "index.html" then
    some { productPods := ["g1", "x2", "g3", "g4", "g5"] }
  else if u = "x2" then none
  else some fullBookDoc

/-- C2 counterexample: at a concrete item document whose title node is
absent (and all other nodes present), `extract_book_data` ends in a raised
`AttributeError` — an exception escaping the function, not a returned
failure value — refuting the claim that a missing title produces the
returned value MissingTitle and that extraction errors are never raised. -/
theorem c2_counterexample :
    extract_book_data c2Site "u.html" = Except.error "AttributeError"
    ∧ resultIsError (extract_book_data c2Site "u.html") = true := by
  decide

/-- C2 (amended): for every item document whose title node is absent, the
extraction pipeline raises an uncaught `AttributeError` — so no record,
partial or otherwise, is ever returned for such a document, but the error
is an exception, not a returned value. -/
theorem c2_missing_title_raises (d : Doc) (u : String)
    (h : d.productMainH1 = none) :
    extractFields d u = Except.error "AttributeError" := by
  unfold extractFields
  rw [h]

/-- Witness for `c2_missing_title_raises` at the concrete document. -/
theorem c2_missing_title_raises_witness :
    extractFields noTitleDoc "u.html" = Except.error "AttributeError" :=
  c2_missing_title_raises noTitleDoc "u.html" (by decide)

lemma rating_map_get_eq_zero (s : String)
    (h : s ∉ (["one", "two", "three", "four", "five"] : List String)) :
    rating_map_get s = 0 := by
  simp only [List.mem_cons, List.mem_singleton, not_or] at h
  obtain ⟨h1, h2, h3, h4, h5⟩ := h
  simp [rating_map_get, h1, h2, h3, h4, h5]

lemma extractFields_rating_default (d : Doc) (u : String) (b : Book)
    (cls : List String) (w : String)
    (hsr : d.starRating = some cls) (hw : cls.get? 1 = some w)
    (hunrec : pyLower w ∉ (["one", "two", "three", "four", "five"] : List String))
    (hok : extractFields d u = Except.ok b) : b.rating = 0 := by
  unfold extractFields at hok
  repeat' split at hok
  all_goals cases hok
  simp_all only [Option.some.injEq]
  exact rating_map_get_eq_zero _ hunrec

lemma extractFields_description_default (d : Doc) (u : String) (b : Book)
    (hdesc : d.descriptionSibling = none)
    (hok : extractFields d u = Except.ok b) :
    b.description = "No description available" := by
  unfold extractFields at hok
  repeat' split at hok
  all_goals cases hok
  simp [descriptionOf, hdesc]

lemma extractFields_availability_missing_raises (d : Doc) (u : String)
    (h : d.availability = none) :
    resultIsError (extractFields d u) = true := by
  unfold extractFields
  split
  · rfl
  split
  · rfl
  split
  · rfl
  rw [h]
  rfl

lemma extractFields_stocknode_missing_raises (d : Doc) (u : String)
    (h : d.instockAvailability = none) :
    resultIsError (extractFields d u) = true := by
  unfold extractFields
  split
  · rfl
  split
  · rfl
  split
  · rfl
  split
  · rfl
  rw [h]
  rfl

/-- C3 counterexample: a concrete item document that is complete except for
its availability node makes the extraction pipeline raise an
`AttributeError` instead of resolving to in_stock=false, stock_count=0 —
refuting the claim that a missing availability/stock-status node is a
soft-default condition that never produces an error. -/
theorem c3_counterexample :
    extractFields noAvailDoc "u.html" = Except.error "AttributeError"
    ∧ extractFields noStockNodeDoc "u.html" = Except.error "AttributeError" := by
  decide

/-- C3 (amended): an unrecognized rating encoding yields rating 0 and a
structurally absent description yields the sentinel default, without error;
but an absent availability node or stock-status node makes extraction raise
an `AttributeError` rather than defaulting to in_stock=false,
stock_count=0. -/
theorem c3_soft_defaults_vs_missing_nodes :
    (∀ (d : Doc) (u : String) (b : Book) (cls : List String) (w : String),
      d.starRating = some cls → cls.get? 1 = some w →
      pyLower w ∉ (["one", "two", "three", "four", "five"] : List String) →
      extractFields d u = Except.ok b → b.rating = 0)
    ∧ (∀ (d : Doc) (u : String) (b : Book), d.descriptionSibling = none →
      extractFields d u = Except.ok b → b.description = "No description available")
    ∧ (∀ (d : Doc) (u : String), d.availability = none →
      resultIsError (extractFields d u) = true)
    ∧ (∀ (d : Doc) (u : String), d.instockAvailability = none →
      resultIsError (extractFields d u) = true) :=
  ⟨extractFields_rating_default, extractFields_description_default,
    extractFields_availability_missing_raises, extractFields_stocknode_missing_raises⟩

/-- Witness for `c3_soft_defaults_vs_missing_nodes`, instantiating each
conjunct at a concrete document. -/
theorem c3_soft_defaults_vs_missing_nodes_witness :
    (⟨"Sound", ⟨5177, 100⟩, 0, true, 16, "A book.", "Poetry", "abc123", "u.html"⟩ : Book).rating = 0
    ∧ (⟨"Sound", ⟨5177, 100⟩, 3, true, 16, "No description available", "Poetry", "abc123", "u.html"⟩ : Book).description = "No description available"
    ∧ resultIsError (extractFields noAvailDoc "u.html") = true
    ∧ resultIsError (extractFields noStockNodeDoc "u.html") = true :=
  ⟨c3_soft_defaults_vs_missing_nodes.1 ratingZeroDoc "u.html" _
      ["star-rating", "Zero"] "Zero" (by decide) (by decide) (by decide) (by decide),
    c3_soft_defaults_vs_missing_nodes.2.1 noDescDoc "u.html" _ (by decide) (by decide),
    c3_soft_defaults_vs_missing_nodes.2.2.1 noAvailDoc "u.html" (by decide),
    c3_soft_defaults_vs_missing_nodes.2.2.2 noStockNodeDoc "u.html" (by decide)⟩

lemma extractFields_in_stock (d : Doc) (u : String) (b : Book) (a : String)
    (ha : d.availability = some a)
    (hok : extractFields d u = Except.ok b) :
    b.availability = strContains (pyStrip a) "In stock" := by
  unfold extractFields at hok
  repeat' split at hok
  all_goals cases hok
  simp_all only [Option.some.injEq]

lemma extractFields_stock_count (d : Doc) (u : String) (b : Book) (s : String)
    (hs : d.instockAvailability = some s)
    (hok : extractFields d u = Except.ok b) :
    b.stock_count = stockCountOf (pyStrip s) := by
  unfold extractFields at hok
  repeat' split at hok
  all_goals cases hok
  simp_all only [Option.some.injEq]

/-- C4: an availability/stock text `In stock (16 available)` extracts to
in_stock=true with stock_count=16, the text `Out of stock` extracts to
in_stock=false with stock_count=0, and whenever the `<N> available` pattern
finds no match in the stock text the extracted stock_count defaults to 0,
with extraction succeeding all the same. -/
theorem c4_stock_parsing :
    (∀ (d : Doc) (u : String) (b : Book),
      d.availability = some "In stock (16 available)" →
      d.instockAvailability = some "In stock (16 available)" →
      extractFields d u = Except.ok b →
      b.availability = true ∧ b.stock_count = 16)
    ∧ (∀ (d : Doc) (u : String) (b : Book),
      d.availability = some "Out of stock" →
      d.instockAvailability = some "Out of stock" →
      extractFields d u = Except.ok b →
      b.availability = false ∧ b.stock_count = 0)
    ∧ (∀ (d : Doc) (u : String) (b : Book) (s : String),
      d.instockAvailability = some s →
      reSearchAvail (pyStrip s) = none →
      extractFields d u = Except.ok b →
      b.stock_count = 0) := by
  refine ⟨?_, ?_, ?_⟩
  · intro d u b ha hs hok
    rw [extractFields_in_stock d u b _ ha hok, extractFields_stock_count d u b _ hs hok]
    exact ⟨by decide, by decide⟩
  · intro d u b ha hs hok
    rw [extractFields_in_stock d u b _ ha hok, extractFields_stock_count d u b _ hs hok]
    exact ⟨by decide, by decide⟩
  · intro d u b s hs hre hok
    rw [extractFields_stock_count d u b _ hs hok]
    unfold stockCountOf
    rw [hre]

/-- Witness for `c4_stock_parsing`: both stock texts at concrete fully
extractable documents, and the no-match default at the out-of-stock text. -/
theorem c4_stock_parsing_witness :
    ((fullBook "u.html").availability = true ∧ (fullBook "u.html").stock_count = 16)
    ∧ ((outBook "u.html").availability = false ∧ (outBook "u.html").stock_count = 0)
    ∧ (outBook "u.html").stock_count = 0 :=
  ⟨c4_stock_parsing.1 fullBookDoc "u.html" _ (by decide) (by decide) (by decide),
    c4_stock_parsing.2.1 outStockDoc "u.html" _ (by decide) (by decide) (by decide),
    c4_stock_parsing.2.2 outStockDoc "u.html" _ "Out of stock" (by decide) (by decide)
      (by decide)⟩

lemma priceKeep_of_ws (c : Char) (h : Char.isWhitespace c = true) :
    priceKeep c = false := by
  simp only [Char.isWhitespace, Bool.or_eq_true, decide_eq_true_eq] at h
  obtain ((h | h) | h) | h := h <;> subst h <;> decide

lemma filter_priceKeep_dropWhile_ws (cs : List Char) :
    (cs.dropWhile Char.isWhitespace).filter priceKeep = cs.filter priceKeep := by
  induction cs with
  | nil => rfl
  | cons c rest ih =>
    by_cases hw : Char.isWhitespace c = true
    · rw [List.dropWhile_cons_of_pos hw, ih,
        List.filter_cons_of_neg (by simp [priceKeep_of_ws c hw])]
    · rw [List.dropWhile_cons_of_neg hw]

lemma filter_priceKeep_pyStripL (cs : List Char) :
    (pyStripL cs).filter priceKeep = cs.filter priceKeep := by
  unfold pyStripL
  rw [List.filter_reverse, filter_priceKeep_dropWhile_ws, List.filter_reverse,
    List.reverse_reverse, filter_priceKeep_dropWhile_ws]

lemma digit_ne_dot (c : Char) (h : c.isDigit = true) : c ≠ '.' := by
  intro he
  subst he
  exact absurd h (by decide)

lemma takeWhile_ne_dot_append (ds1 ds2 : List Char)
    (h : ∀ c ∈ ds1, c.isDigit = true) :
    List.takeWhile (fun c => c != '.') (ds1 ++ '.' :: ds2) = ds1 := by
  induction ds1 with
  | nil => simp
  | cons c rest ih =>
    have hc : (c != '.') = true := by
      simp only [bne_iff_ne, ne_eq]
      exact digit_ne_dot c (h c (List.mem_cons_self c rest))
    simp only [List.cons_append, List.takeWhile_cons, hc, if_true]
    rw [ih (fun x hx => h x (List.mem_cons_of_mem c hx))]

/-- C5: for every price text of the form currency symbol + digits + dot +
digits, the price extracted by lines 37–38 is exactly the decimal value of
the digits around the dot — obtained by stripping every non-digit, non-dot
character and parsing the remainder; in particular `£51.77` parses to
`51.77`; and whenever a record is produced, its price field is exactly the
value `parse_price` returned for the price text. -/
theorem c5_price_parsing :
    (∀ (sym ds1 ds2 : List Char),
      (∀ c ∈ sym, c.isDigit = false ∧ c ≠ '.') →
      ds1 ≠ [] → (∀ c ∈ ds1, c.isDigit = true) →
      ds2 ≠ [] → (∀ c ∈ ds2, c.isDigit = true) →
      parse_price (String.mk (sym ++ ds1 ++ '.' :: ds2))
        = Except.ok ⟨natOfDigits ds1 * 10 ^ ds2.length + natOfDigits ds2, 10 ^ ds2.length⟩
      ∧ (PyFloat.toRat ⟨natOfDigits ds1 * 10 ^ ds2.length + natOfDigits ds2, 10 ^ ds2.length⟩
        = (natOfDigits ds1 : ℚ) + (natOfDigits ds2 : ℚ) / 10 ^ ds2.length))
    ∧ parse_price "£51.77" = Except.ok ⟨5177, 100⟩
    ∧ PyFloat.toRat ⟨5177, 100⟩ = 51.77
    ∧ (∀ (d : Doc) (u : String) (b : Book) (s : String) (q : PyFloat),
      d.priceColor = some s → parse_price s = Except.ok q →
      extractFields d u = Except.ok b → b.price = q) := by
  refine ⟨?_, by decide, by norm_num [PyFloat.toRat], ?_⟩
  · intro sym ds1 ds2 hsym h1ne h1 h2ne h2
    have hfsym : sym.filter priceKeep = [] := by
      rw [List.filter_eq_nil_iff]
      intro c hc
      simp [priceKeep, (hsym c hc).1, (hsym c hc).2]
    have hf1 : ds1.filter priceKeep = ds1 := by
      rw [List.filter_eq_self]
      intro c hc
      simp [priceKeep, h1 c hc]
    have hf2 : ds2.filter priceKeep = ds2 := by
      rw [List.filter_eq_self]
      intro c hc
      simp [priceKeep, h2 c hc]
    have hfilter : (sym ++ ds1 ++ '.' :: ds2).filter priceKeep = ds1 ++ '.' :: ds2 := by
      rw [List.append_assoc, List.filter_append, hfsym, List.filter_append, hf1,
        List.filter_cons_of_pos (by decide), hf2]
      rfl
    have hdot1 : '.' ∉ ds1 := fun hm => digit_ne_dot '.' (h1 '.' hm) rfl
    have hdot2 : '.' ∉ ds2 := fun hm => digit_ne_dot '.' (h2 '.' hm) rfl
    have hcount : (ds1 ++ '.' :: ds2).count '.' = 1 := by
      rw [List.count_append, List.count_eq_zero.mpr hdot1, List.count_cons_self,
        List.count_eq_zero.mpr hdot2]
    have hany : (ds1 ++ '.' :: ds2).any Char.isDigit = true := by
      rcases ds1 with _ | ⟨c, rest⟩
      · exact absurd rfl h1ne
      · simp only [List.any_eq_true]
        exact ⟨c, by simp, h1 c (List.mem_cons_self c rest)⟩
    have hdrop : (ds1 ++ '.' :: ds2).drop (ds1.length + 1) = ds2 := by
      rw [List.append_cons, List.drop_left' (by simp)]
    have htake := takeWhile_ne_dot_append ds1 ds2 h1
    constructor
    · unfold parse_price
      have : ((pyStrip (String.mk (sym ++ ds1 ++ '.' :: ds2))).toList).filter priceKeep
          = ds1 ++ '.' :: ds2 := by
        show (pyStripL (sym ++ ds1 ++ '.' :: ds2)).filter priceKeep = _
        rw [filter_priceKeep_pyStripL]
        exact hfilter
      rw [this]
      unfold pyFloat?
      rw [if_pos (by rw [hany, hcount]; decide)]
      unfold dotSplitVal
      simp only [htake, hdrop]
    · unfold PyFloat.toRat
      push_cast
      have hpow : ((10 : ℚ) ^ ds2.length) ≠ 0 := by positivity
      field_simp
  · intro d u b s q hp hq hok
    unfold extractFields at hok
    repeat' split at hok
    all_goals cases hok
    simp_all only [Option.some.injEq, Except.ok.injEq]

/-- Witness for `c5_price_parsing`, applying the general conjunct at the
symbol `£` with digits `51` and `77`, and the record-level conjunct at a
concrete document. -/
theorem c5_price_parsing_witness :
    (parse_price (String.mk (['£'] ++ ['5', '1'] ++ '.' :: ['7', '7']))
        = Except.ok ⟨natOfDigits ['5', '1'] * 10 ^ 2 + natOfDigits ['7', '7'], 10 ^ 2⟩
      ∧ PyFloat.toRat ⟨natOfDigits ['5', '1'] * 10 ^ 2 + natOfDigits ['7', '7'], 10 ^ 2⟩
        = (natOfDigits ['5', '1'] : ℚ) + (natOfDigits ['7', '7'] : ℚ) / 10 ^ 2)
    ∧ (fullBook "u.html").price = ⟨5177, 100⟩ :=
  ⟨c5_price_parsing.1 ['£'] ['5', '1'] ['7', '7'] (by decide) (by decide) (by decide)
      (by decide) (by decide),
    c5_price_parsing.2.2.2 fullBookDoc "u.html" _ "£51.77" ⟨5177, 100⟩ (by decide)
      (by decide) (by decide)⟩

lemma mk_toList_eq (s : String) : String.mk s.toList = s := by
  cases s
  rfl

lemma replaceAllGo_of_not_contains (pat rep : List Char) :
    ∀ (fuel : Nat) (s : List Char), containsL pat s = false →
      replaceAllGo pat rep fuel s = s := by
  intro fuel
  induction fuel with
  | zero => intro s _; rfl
  | succ n ih =>
    intro s h
    cases s with
    | nil => rfl
    | cons c rest =>
      unfold containsL at h
      rw [Bool.or_eq_false_iff] at h
      obtain ⟨h1, h2⟩ := h
      unfold replaceAllGo
      simp only [h1, Bool.and_false, Bool.false_eq_true, if_false]
      rw [ih rest h2]

lemma pyReplace_of_not_contains (s old new : String)
    (h : strContains s old = false) : pyReplace s old new = s := by
  unfold pyReplace replaceAllL
  rw [replaceAllGo_of_not_contains old.toList new.toList s.toList.length s.toList h]
  exact mk_toList_eq s

/-- C8: for every category address not containing the token `index.html`,
the address derived for any page index at least 2 is the very category
address itself — the `str.replace` at line 82 is a no-op — so the
paginator re-fetches page 1 instead of advancing; and the shipped test
path's address, the site root `base_url`, is exactly such an address. -/
theorem c8_no_index_token_refetches_first_page :
    (∀ (url : String) (n : Nat), strContains url "index.html" = false → 2 ≤ n →
      pageUrl url n = url ∧ pageUrl url n = pageUrl url 1)
    ∧ strContains base_url "index.html" = false := by
  constructor
  · intro url n h hn
    have hne : ¬ (n = 1) := by omega
    have hu : pageUrl url n = url := by
      unfold pageUrl
      rw [if_neg hne]
      exact pyReplace_of_not_contains url "index.html"
        ("page-" ++ toString n ++ ".html") h
    exact ⟨hu, by rw [hu]; unfold pageUrl; rw [if_pos rfl]⟩
  · decide

/-- Witness for `c8_no_index_token_refetches_first_page` at the site root
address and page index 2. -/
theorem c8_no_index_token_refetches_first_page_witness :
    pageUrl base_url 2 = base_url ∧ pageUrl base_url 2 = pageUrl base_url 1 :=
  c8_no_index_token_refetches_first_page.1 base_url 2
    c8_no_index_token_refetches_first_page.2 (by decide)

lemma limitReached_some_zero (c : Nat) : limitReached (some 0) c = false := rfl

lemma limitReached_none_eq (c : Nat) : limitReached none c = false := rfl

lemma forBooks_limit_zero (site : String → Option Doc) (url : String) :
    ∀ (hrefs : List String) (acc : List Book) (count : Nat) (log : List String),
      forBooks site url (some 0) hrefs acc count log
        = forBooks site url none hrefs acc count log := by
  intro hrefs
  induction hrefs with
  | nil => intro acc count log; rfl
  | cons href rest ih =>
    intro acc count log
    unfold forBooks
    simp only [limitReached_some_zero, limitReached_none_eq, Bool.false_eq_true, if_false]
    cases hx : extract_book_data site (urljoin url href) with
    | error e => rfl
    | ok ob =>
      cases ob with
      | none => exact ih acc count (log ++ [urljoin url href])
      | some b => exact ih (acc ++ [b]) (count + 1) (log ++ [urljoin url href])

lemma scrapePagesAux_limit_zero (site : String → Option Doc) (url : String) :
    ∀ (fuel page count : Nat) (acc : List Book) (log : List String),
      scrapePagesAux site url (some 0) fuel page acc count log
        = scrapePagesAux site url none fuel page acc count log := by
  intro fuel
  induction fuel with
  | zero => intro page count acc log; rfl
  | succ n ih =>
    intro page count acc log
    unfold scrapePagesAux
    cases hs : site (pageUrl url page) with
    | none => rfl
    | some soup =>
      by_cases hp : soup.productPods.isEmpty = true
      · simp only [hp, if_true]
      · rw [Bool.not_eq_true] at hp
        simp only [hp, Bool.false_eq_true, if_false]
        rw [forBooks_limit_zero site (pageUrl url page) soup.productPods acc count log]
        cases hfb : forBooks site (pageUrl url page) none soup.productPods acc count log with
        | mk acc2 count2 log2 exn2 =>
          cases exn2 with
          | some e => rfl
          | none =>
            simp only [limitReached_some_zero, limitReached_none_eq,
              Bool.false_eq_true, if_false]
            by_cases hn : soup.hasNext = true
            · simp only [hn, if_true]
              exact ih (page + 1) count2 acc2 log2
            · rw [Bool.not_eq_true] at hn
              simp only [hn, Bool.false_eq_true, if_false]

/-- C9: calling `scrape_category` with limit 0 behaves identically to
calling it with no limit at all — the truthiness test `limit and
books_count >= limit` treats 0 as unlimited, so every item of the category
is yielded rather than zero items. -/
theorem c9_limit_zero_is_unlimited (site : String → Option Doc) (url : String)
    (fuel : Nat) :
    scrape_category site url (some 0) fuel = scrape_category site url none fuel :=
  scrapePagesAux_limit_zero site url fuel 1 0 [] []

lemma limitReached_false_lt (L count : Nat) (hL : 0 < L)
    (h : limitReached (some L) count = false) : count < L := by
  have h2 : (if L = 0 then false else decide (L ≤ count)) = false := h
  rw [if_neg (by omega)] at h2
  have := of_decide_eq_false h2
  omega

lemma forBooks_inv (site : String → Option Doc) (url : String) (L : Nat)
    (hL : 0 < L) :
    ∀ (hrefs : List String) (acc : List Book) (count : Nat) (log : List String),
      acc.length = count → count ≤ L →
      (forBooks site url (some L) hrefs acc count log).acc.length
        = (forBooks site url (some L) hrefs acc count log).count
      ∧ (forBooks site url (some L) hrefs acc count log).count ≤ L := by
  intro hrefs
  induction hrefs with
  | nil => intro acc count log h1 h2; exact ⟨h1, h2⟩
  | cons href rest ih =>
    intro acc count log h1 h2
    unfold forBooks
    by_cases hlim : limitReached (some L) count = true
    · rw [if_pos hlim]
      exact ⟨h1, h2⟩
    · rw [if_neg hlim]
      rw [Bool.not_eq_true] at hlim
      have hlt : count < L := limitReached_false_lt L count hL hlim
      cases hx : extract_book_data site (urljoin url href) with
      | error e => exact ⟨h1, h2⟩
      | ok ob =>
        cases ob with
        | none => exact ih acc count (log ++ [urljoin url href]) h1 h2
        | some b =>
          exact ih (acc ++ [b]) (count + 1) (log ++ [urljoin url href])
            (by simp [h1]) (by omega)

lemma scrapePagesAux_ok_le (site : String → Option Doc) (url : String) (L : Nat)
    (hL : 0 < L) :
    ∀ (fuel page count : Nat) (acc : List Book) (log : List String)
      (books : List Book) (flog : List String),
      acc.length = count → count ≤ L →
      scrapePagesAux site url (some L) fuel page acc count log
        = ⟨RunResult.ok books, flog⟩ →
      books.length ≤ L := by
  intro fuel
  induction fuel with
  | zero =>
    intro page count acc log books flog _ _ heq
    simp [scrapePagesAux] at heq
  | succ n ih =>
    intro page count acc log books flog h1 h2 heq
    unfold scrapePagesAux at heq
    cases hs : site (pageUrl url page) with
    | none =>
      rw [hs] at heq
      simp only [CrawlOutcome.mk.injEq, RunResult.ok.injEq] at heq
      rw [← heq.1, ← h1] at *
      omega
    | some soup =>
      rw [hs] at heq
      by_cases hp : soup.productPods.isEmpty = true
      · simp only [hp, if_true, CrawlOutcome.mk.injEq, RunResult.ok.injEq] at heq
        rw [← heq.1, ← h1] at *
        omega
      · rw [Bool.not_eq_true] at hp
        simp only [hp, Bool.false_eq_true, if_false] at heq
        obtain ⟨hacc, hcnt⟩ :=
          forBooks_inv site (pageUrl url page) L hL soup.productPods acc count log h1 h2
        cases hfb : forBooks site (pageUrl url page) (some L) soup.productPods acc count log with
        | mk acc2 count2 log2 exn2 =>
          rw [hfb] at heq hacc hcnt
          simp only at hacc hcnt
          cases exn2 with
          | some e => simp at heq
          | none =>
            by_cases hl2 : limitReached (some L) count2 = true
            · simp only [hl2, if_true, CrawlOutcome.mk.injEq, RunResult.ok.injEq] at heq
              rw [← heq.1]
              omega
            · rw [Bool.not_eq_true] at hl2
              simp only [hl2, Bool.false_eq_true, if_false] at heq
              by_cases hn : soup.hasNext = true
              · simp only [hn, if_true] at heq
                exact ih (page + 1) count2 acc2 log2 books flog hacc hcnt heq
              · rw [Bool.not_eq_true] at hn
                simp only [hn, Bool.false_eq_true, if_false,
                  CrawlOutcome.mk.injEq, RunResult.ok.injEq] at heq
                rw [← heq.1]
                omega

/-- C6: under a positive limit L, a category traversal that returns
normally yields at most L records, and the check fires before the next
item of the current page is even resolved: over the concrete category of
three pages of twenty items with limit 25, exactly 25 records are
collected, the item fetches are exactly page 1's twenty and page 2's first
five, and neither page 2's sixth item nor any page 3 item is ever
fetched. -/
theorem c6_limit_bounds_traversal :
    (∀ (site : String → Option Doc) (url : String) (L fuel : Nat)
      (books : List Book) (flog : List String),
      0 < L →
      scrape_category site url (some L) fuel = ⟨RunResult.ok books, flog⟩ →
      books.length ≤ L)
    ∧ scrape_category c6Site "index.html" (some 25) 10
      = ⟨RunResult.ok c6Books, c6Fetches⟩
    ∧ c6Books.length = 25
    ∧ "b6" ∉ c6Fetches
    ∧ "c1" ∉ c6Fetches := by
  refine ⟨?_, by decide, by decide, by decide, by decide⟩
  intro site url L fuel books flog hpos heq
  exact scrapePagesAux_ok_le site url L hpos fuel 1 0 [] [] books flog rfl
    (Nat.zero_le L) heq

/-- Witness for `c6_limit_bounds_traversal`, applying its general bound at
the concrete three-page category. -/
theorem c6_limit_bounds_traversal_witness : c6Books.length ≤ 25 :=
  c6_limit_bounds_traversal.1 c6Site "index.html" 25 10 c6Books c6Fetches
    (by decide) c6_limit_bounds_traversal.2.1

/-- C10: the limit counter counts successfully extracted records only — an
item whose extraction returns nothing is fetched but leaves the counter
unchanged — so with a failing item in range, strictly more item pages than
the limit are fetched: concretely, a limit-3 crawl over five items whose
second item page fails to fetch collects 3 records while fetching 4 item
pages. -/
theorem c10_limit_counts_successes_only :
    (∀ (site : String → Option Doc) (url : String) (limit : Option Nat)
      (href : String) (rest : List String) (acc : List Book) (count : Nat)
      (log : List String),
      limitReached limit count = false →
      extract_book_data site (urljoin url href) = Except.ok none →
      forBooks site url limit (href :: rest) acc count log
        = forBooks site url limit rest acc count (log ++ [urljoin url href]))
    ∧ scrape_category c10Site "index.html" (some 3) 5
      = ⟨RunResult.ok [fullBook "g1", fullBook "g3", fullBook "g4"],
          ["g1", "x2", "g3", "g4"]⟩
    ∧ 3 < (["g1", "x2", "g3", "g4"] : List String).length := by
  refine ⟨?_, by decide, by decide⟩
  intro site url limit href rest acc count log hlim hx
  conv_lhs => unfold forBooks
  simp only [hlim, Bool.false_eq_true, if_false, hx]

/-- Witness for `c10_limit_counts_successes_only`: the fetch-failing item
`x2` of the concrete site is consumed without incrementing the counter. -/
theorem c10_limit_counts_successes_only_witness :
    forBooks c10Site "index.html" (some 3) ["x2", "g3", "g4", "g5"]
      [fullBook "g1"] 1 ["g1"]
    = forBooks c10Site "index.html" (some 3) ["g3", "g4", "g5"]
      [fullBook "g1"] 1 ["g1", "x2"] :=
  c10_limit_counts_successes_only.1 c10Site "index.html" (some 3) "x2"
    ["g3", "g4", "g5"] [fullBook "g1"] 1 ["g1"] (by decide) (by decide)

/-- C7: whenever page 1 of a category is served with a non-empty item list
whose items all process without a raised exception, the limit has not been
reached, a next-page link exists, and the derived page-2 address fails to
fetch, the traversal returns normally with exactly the records gathered
from page 1 — the partial results are kept, and no error propagates out of
`scrape_category`. -/
theorem c7_page2_failure_keeps_page1 (site : String → Option Doc) (url : String)
    (limit : Option Nat) (fuel : Nat) (d : Doc)
    (h1 : site url = some d)
    (hpods : d.productPods.isEmpty = false)
    (hexn : (forBooks site url limit d.productPods [] 0 []).exn = none)
    (hlim : limitReached limit (forBooks site url limit d.productPods [] 0 []).count = false)
    (hnext : d.hasNext = true)
    (h2 : site (pageUrl url 2) = none) :
    scrape_category site url limit (fuel + 2)
      = ⟨RunResult.ok (forBooks site url limit d.productPods [] 0 []).acc,
          (forBooks site url limit d.productPods [] 0 []).fetched⟩ := by
  unfold scrape_category
  unfold scrapePagesAux
  have hpage1 : pageUrl url 1 = url := by unfold pageUrl; rw [if_pos rfl]
  rw [hpage1, h1]
  simp only [hpods, Bool.false_eq_true, if_false]
  cases hfb : forBooks site url limit d.productPods [] 0 [] with
  | mk acc2 count2 log2 exn2 =>
    rw [hfb] at hexn hlim
    simp only at hexn hlim
    subst hexn
    simp only [hlim, Bool.false_eq_true, if_false, hnext, if_true]
    unfold scrapePagesAux
    rw [h2]

/-- Witness for `c7_page2_failure_keeps_page1` at the concrete two-item
category whose page 2 fails to fetch. -/
theorem c7_page2_failure_keeps_page1_witness :
    scrape_category c7Site "cat/index.html" none 5
      = ⟨RunResult.ok [fullBook "cat/g1.html", fullBook "cat/g2.html"],
          ["cat/g1.html", "cat/g2.html"]⟩ := by
  have h := c7_page2_failure_keeps_page1 c7Site "cat/index.html" none 3
    { productPods := ["g1.html", "g2.html"], hasNext := true }
    (by decide) (by decide) (by decide) (by decide) (by decide) (by decide)
  exact h

/-- C1 counterexample: over a concrete 1-page category of 2 items where the
second item page is served but lacks its price node, the crawl does not end
with a 1-record dataset — it aborts with an uncaught `AttributeError`
raised out of `scrape_category`, refuting the claim that a malformed item
document never aborts the category or the run. -/
theorem c1_counterexample :
    (scrape_category c1Site "cat/index.html" none 5).result
      = RunResult.exn "AttributeError"
    ∧ (scrape_category c1Site "cat/index.html" none 5).result
      ≠ RunResult.ok [fullBook "cat/good.html"] := by
  decide

/-- C1 (amended): the orchestrator skips an item and continues only when
the item's extraction yields nothing because its page fetch failed — a
1-page category of 2 items whose second item page fails to fetch leaves
exactly 1 record; but when extraction fails on a served, malformed item
document (price node absent), the uncaught exception aborts the category
and the run. -/
theorem c1_fetch_failure_skipped_but_malformed_doc_aborts :
    scrape_category c1SiteB "cat/index.html" none 5
      = ⟨RunResult.ok [fullBook "cat/good.html"],
          ["cat/good.html", "cat/missing.html"]⟩
    ∧ scrape_category c1Site "cat/index.html" none 5
      = ⟨RunResult.exn "AttributeError", ["cat/good.html", "cat/bad.html"]⟩ :=
  ⟨by decide, by decide⟩
